import Mathlib

/-!
Verification of the Haiven MCP server's tool/prompt bridge.

This file gives a shallow embedding, in Lean 4, of the stateful core of the
repository: the `PromptService` catalog/content caching layer
(`src/services/prompt_service.py`), the two concrete tool handlers
(`src/tools/get_prompts.py`, `src/tools/get_prompt_text.py`), the tool
registry and protocol-handler dispatch (`src/tools/registry.py`,
`src/mcp_server.py`), and the authentication header construction in
`HaivenMCPServer.__init__`.

Modelling conventions:
* Python dicts (insertion-ordered, update-in-place) are association lists
  with `dictInsert` / `dictGet`.
* A backend HTTP exchange is a value of `Except Unit β`: `Except.error ()`
  models any raised exception on the calling side (connection fault,
  non-2xx status via `raise_for_status`, JSON decode error), `Except.ok b`
  a successfully decoded body `b`.
* JSON records whose fields the code reads with `.get(key, default)` or
  `[key]` are structures with `Option` fields; `none` models an absent key.
* The `httpx` client, `base_url` and logging are capabilities with no
  effect on the verified state and are elided.
-/

namespace Haiven

/-- Python dict `d[k] = v`: replace the value at the first occurrence of the
key, keeping its position; append at the end when the key is absent. -/
def dictInsert {α : Type} : List (String × α) → String → α → List (String × α)
  | [], k, v => [(k, v)]
  | (k0, v0) :: rest, k, v =>
      if k0 = k then (k0, v) :: rest else (k0, v0) :: dictInsert rest k v

/-- Python dict `d.get(k)`: the value at the first occurrence of the key. -/
def dictGet {α : Type} : List (String × α) → String → Option α
  | [], _ => none
  | (k0, v0) :: rest, k => if k0 = k then some v0 else dictGet rest k

/-- Metadata stored per catalog entry (`PromptMetadata` TypedDict). -/
structure PromptMetadata where
  title : String
  categories : List String
  help_prompt_description : String
  help_user_input : String
  help_sample_input : String
  type : String
deriving DecidableEq

/-- A raw catalog record as decoded from `GET /api/prompts`. Fields are
optional because the code reads some of them with `.get(..., default)`;
`none` models a missing key. -/
structure RawCatalogRecord where
  identifier : Option String
  title : Option String
  categories : Option (List String)
  help_prompt_description : Option String
  help_user_input : Option String
  help_sample_input : Option String
  type : Option String
  download_restricted : Option Bool
deriving DecidableEq

/-- The record shape produced by `get_cached_prompts_data` (`PromptData`
TypedDict, all fields present). -/
structure PromptData where
  identifier : String
  title : String
  categories : List String
  help_prompt_description : String
  help_user_input : String
  help_sample_input : String
  type : String
  download_restricted : Bool
deriving DecidableEq

/-- Normalized per-prompt content (`PromptContentResponse` TypedDict). -/
structure PromptContentResponse where
  prompt_id : String
  title : String
  content : String
  type : String
  follow_ups : List String
deriving DecidableEq

/-- A raw record from `GET /api/download-prompt`; the code reads every field
with `.get(..., default)`, so all fields are optional. -/
structure RawContent where
  identifier : Option String
  title : Option String
  content : Option String
  type : Option String
  follow_ups : Option (List String)
deriving DecidableEq

/-- Decoded body of `GET /api/download-prompt`. `empty` models any falsy
body (`null`, empty object, empty string); an empty JSON array can be
represented either as `empty` (Python's `if not prompt_data` treats `[]` as
falsy) or as `list []` — both mean not-found in the code. -/
inductive DownloadBody where
  | empty
  | obj (o : RawContent)
  | list (l : List RawContent)
deriving DecidableEq

/-- Mutable state of `PromptService` (`prompts_loaded`, `loaded_prompts`,
`prompt_content_cache`). -/
structure PromptServiceState where
  prompts_loaded : Bool
  loaded_prompts : List (String × PromptMetadata)
  prompt_content_cache : List (String × PromptContentResponse)
deriving DecidableEq

/-- `PromptService.__init__`: not loaded, empty catalog, empty cache. -/
def initState : PromptServiceState :=
  { prompts_loaded := false, loaded_prompts := [], prompt_content_cache := [] }

/-- `PromptService.load_prompts_from_api`: on success, keep only records
whose `download_restricted` flag (default `False` when absent) is not set;
on failure re-raise. -/
def load_prompts_from_api (resp : Except Unit (List RawCatalogRecord)) :
    Except Unit (List RawCatalogRecord) :=
  match resp with
  | .error e => .error e
  | .ok body => .ok (body.filter (fun r => !(r.download_restricted.getD false)))

/-- The `PromptMetadata(...)` construction inside `register_prompts`: every
field is read with `prompt[key]`, so a missing key raises `KeyError`
(modelled as `none`). -/
def toMetadata? (r : RawCatalogRecord) : Option PromptMetadata :=
  match r.title, r.categories, r.help_prompt_description, r.help_user_input,
      r.help_sample_input, r.type with
  | some t, some c, some d, some u, some si, some ty =>
      some { title := t, categories := c, help_prompt_description := d,
             help_user_input := u, help_sample_input := si, type := ty }
  | _, _, _, _, _, _ => none

/-- The `for prompt in prompts_data` loop of `register_prompts`. A record
with a present-but-falsy identifier (empty string) is skipped with a
warning; a record with a missing key raises `KeyError`, which aborts the
loop (the outer handler catches it), keeping what was accumulated so far. -/
def registerLoop : List (String × PromptMetadata) → List RawCatalogRecord →
    List (String × PromptMetadata)
  | m, [] => m
  | m, r :: rs =>
      match r.identifier with
      | none => m
      | some pid =>
          if pid = "" then registerLoop m rs
          else
            match toMetadata? r with
            | none => m
            | some md => registerLoop (dictInsert m pid md) rs

/-- `PromptService.register_prompts`: store the metadata of every filtered
record; on any fault (from the load or from the loop) keep whatever was
accumulated; in every case set `prompts_loaded := true` (graceful
degradation). -/
def register_prompts (s : PromptServiceState)
    (resp : Except Unit (List RawCatalogRecord)) : PromptServiceState :=
  match load_prompts_from_api resp with
  | .error _ => { s with prompts_loaded := true }
  | .ok ps =>
      { s with loaded_prompts := registerLoop s.loaded_prompts ps,
               prompts_loaded := true }

/-- The `PromptData(...)` record rebuilt by `get_cached_prompts_data`
(`download_restricted` hard-coded to `False`). -/
def promptDataOf (pid : String) (md : PromptMetadata) : PromptData :=
  { identifier := pid, title := md.title, categories := md.categories,
    help_prompt_description := md.help_prompt_description,
    help_user_input := md.help_user_input,
    help_sample_input := md.help_sample_input, type := md.type,
    download_restricted := false }

/-- `PromptService.get_cached_prompts_data`. -/
def get_cached_prompts_data (s : PromptServiceState) : List PromptData :=
  if s.prompts_loaded = false then []
  else s.loaded_prompts.map (fun kv => promptDataOf kv.1 kv.2)

/-- The `formatted_response` dict of `get_prompt_content`: every field read
with `.get(..., default)`. -/
def normalizeContent (pid : String) (o : RawContent) : PromptContentResponse :=
  { prompt_id := o.identifier.getD pid,
    title := o.title.getD "Unknown",
    content := o.content.getD "No content available",
    type := o.type.getD "chat",
    follow_ups := o.follow_ups.getD [] }

/-- The fetch-and-normalize part of `get_prompt_content` (everything inside
its `try` after the HTTP call): `none` is the not-found result. -/
def fetchContentResult (pid : String) (resp : Except Unit DownloadBody) :
    Option PromptContentResponse :=
  match resp with
  | .error _ => none
  | .ok .empty => none
  | .ok (.obj o) => some (normalizeContent pid o)
  | .ok (.list []) => none
  | .ok (.list (o :: _)) => some (normalizeContent pid o)

/-- Result of one `get_prompt_content` call: the returned value, the state
after the call, and whether an HTTP request to the backend was issued. -/
structure FetchOutcome where
  result : Option PromptContentResponse
  state : PromptServiceState
  httpCalled : Bool
deriving DecidableEq

/-- `PromptService.get_prompt_content`: cache-first; on a miss fetch,
normalize and cache a successful result; a not-found or failed fetch is
returned as `none` with the state unchanged. -/
def get_prompt_content (s : PromptServiceState) (pid : String)
    (resp : Except Unit DownloadBody) : FetchOutcome :=
  match dictGet s.prompt_content_cache pid with
  | some cached => { result := some cached, state := s, httpCalled := false }
  | none =>
      match fetchContentResult pid resp with
      | none => { result := none, state := s, httpCalled := true }
      | some r =>
          { result := some r,
            state := { s with
              prompt_content_cache := dictInsert s.prompt_content_cache pid r },
            httpCalled := true }

/-- `PromptService.get_prompt_metadata`. -/
def get_prompt_metadata (s : PromptServiceState) (pid : String) :
    Option PromptMetadata :=
  dictGet s.loaded_prompts pid

/-- `PromptService.format_prompt_description`: `loaded_prompts.get(id, {})`
then `.get` with defaults `""` / `[]` on the result. -/
def format_prompt_description (s : PromptServiceState) (pid : String) : String :=
  let md := dictGet s.loaded_prompts pid
  let title := (md.map PromptMetadata.title).getD ""
  let description := (md.map PromptMetadata.help_prompt_description).getD ""
  let categories := (md.map PromptMetadata.categories).getD []
  let categories_str :=
    if categories.isEmpty then "" else String.intercalate ", " categories
  let formatted_desc := title ++ ": " ++ description
  if categories_str = "" then formatted_desc
  else formatted_desc ++ " (Categories: " ++ categories_str ++ ")"

/-- One `{name, description}` entry of `get_all_prompt_descriptions`. -/
structure PromptDescription where
  name : String
  description : String
deriving DecidableEq

/-- `PromptService.get_all_prompt_descriptions`. -/
def get_all_prompt_descriptions (s : PromptServiceState) :
    List PromptDescription :=
  if s.prompts_loaded = false then []
  else s.loaded_prompts.map
    (fun kv => { name := kv.1, description := format_prompt_description s kv.1 })

/-- `PromptService.is_prompt_loaded`. -/
def is_prompt_loaded (s : PromptServiceState) (pid : String) : Bool :=
  (dictGet s.loaded_prompts pid).isSome

/-- `PromptService.get_prompts_count`. -/
def get_prompts_count (s : PromptServiceState) : Nat :=
  if s.prompts_loaded then s.loaded_prompts.length else 0

/-- A state-mutating operation on the service: one `register_prompts` call
or one `get_prompt_content` call, each with the backend exchange it
observes. These are the only operations that write any service field. -/
inductive Op where
  | register (resp : Except Unit (List RawCatalogRecord))
  | fetch (pid : String) (resp : Except Unit DownloadBody)

/-- Apply one operation to the service state. -/
def applyOp (s : PromptServiceState) : Op → PromptServiceState
  | .register resp => register_prompts s resp
  | .fetch pid resp => (get_prompt_content s pid resp).state

/-- Apply a sequence of operations in order. -/
def applyOps (s : PromptServiceState) (ops : List Op) : PromptServiceState :=
  ops.foldl applyOp s

/-!
Tool handlers (`src/tools/get_prompts.py`, `src/tools/get_prompt_text.py`).

Both handlers issue their own HTTP GET through the shared client; neither
reads `self.server.prompt_service`. Their single `TextContent` reply wraps
`json.dumps` of a result dict; the serialization step is elided and the
structured payload kept, since no claim depends on the JSON text itself.
-/

/-- The `filtered_prompt` dict built per record by the get_prompts handler:
seven fields read with `.get(..., default)`; the `download_restricted` flag
is not consulted. -/
structure CatalogItem where
  identifier : String
  title : String
  categories : List String
  help_prompt_description : String
  help_user_input : String
  help_sample_input : String
  type : String
deriving DecidableEq

/-- Projection of a raw catalog record performed inside the get_prompts
handler's loop. -/
def filteredPromptOf (r : RawCatalogRecord) : CatalogItem :=
  { identifier := r.identifier.getD "", title := r.title.getD "",
    categories := r.categories.getD [],
    help_prompt_description := r.help_prompt_description.getD "",
    help_user_input := r.help_user_input.getD "",
    help_sample_input := r.help_sample_input.getD "",
    type := r.type.getD "" }

/-- Outcome of `GetPromptsToolHandler.execute`: either the
`{prompts, total_count}` payload serialized into one `TextContent`, or one
error `TextContent` (`fetchError`), whose text starts with the literal
`Error: ` followed by the caught exception's message. -/
inductive GetPromptsResult where
  | success (prompts : List CatalogItem) (total_count : Nat)
  | fetchError
deriving DecidableEq

/-- `GetPromptsToolHandler.execute`: one direct `GET /api/prompts` on every
call (the `Bool` records that the HTTP request was issued), no restriction
filtering, no use of the `PromptService`. -/
def getPrompts_execute (resp : Except Unit (List RawCatalogRecord)) :
    GetPromptsResult × Bool :=
  match resp with
  | .error _ => (.fetchError, true)
  | .ok body => (.success (body.map filteredPromptOf) (body.map filteredPromptOf).length, true)

/-- Tool-call arguments: the handlers only ever read string values out of
the argument dict, so a string-valued dict suffices. -/
def ToolArgs : Type := List (String × String)

/-- Outcome of `GetPromptTextToolHandler.execute`: the normalized record
serialized into one `TextContent`, or one error `TextContent` with the
given text, or one error `TextContent` whose text starts with `Error: `
followed by the caught exception's message (`fetchError`). -/
inductive GetPromptTextResult where
  | success (r : PromptContentResponse)
  | errorText (msg : String)
  | fetchError
deriving DecidableEq

/-- `GetPromptTextToolHandler.execute`: a missing or falsy `prompt_id`
yields the required-argument error with no HTTP call; otherwise one direct
`GET /api/download-prompt` per call (the `Bool` records that the request
was issued), with the same body normalization as the service but without
consulting or filling any cache. -/
def getPromptText_execute (args : ToolArgs) (resp : Except Unit DownloadBody) :
    GetPromptTextResult × Bool :=
  match dictGet args "prompt_id" with
  | none => (.errorText "Error: prompt_id is required", false)
  | some pid =>
      if pid = "" then (.errorText "Error: prompt_id is required", false)
      else
        match resp with
        | .error _ => (.fetchError, true)
        | .ok .empty =>
            (.errorText ("Error: Prompt with ID '" ++ pid ++ "' not found"), true)
        | .ok (.list []) =>
            (.errorText ("Error: Prompt with ID '" ++ pid ++ "' not found"), true)
        | .ok (.obj o) => (.success (normalizeContent pid o), true)
        | .ok (.list (o :: _)) => (.success (normalizeContent pid o), true)

/-!
Tool registry and protocol-handler dispatch (`src/tools/registry.py`,
`call_tool` in `src/mcp_server.py`).
-/

/-- One `TextContent(type="text", text=...)` item. -/
structure TextContent where
  type : String
  text : String
deriving DecidableEq

/-- A Python exception crossing the dispatch layer: a `ValueError` with its
message, or any other exception type. -/
inductive PyExc where
  | valueError (msg : String)
  | otherExc
deriving DecidableEq

/-- The behavior of one registered tool's `execute`: it either returns
content items or raises. -/
def ToolFn : Type := ToolArgs → Except PyExc (List TextContent)

/-- `ToolRegistry.tools`: dict from tool name to tool instance. -/
def Registry : Type := List (String × ToolFn)

/-- A tool, like the two shipped handlers, whose `execute` body is wrapped
in a catch-all `except` and therefore never raises. -/
def mkTool (f : ToolArgs → List TextContent) : ToolFn :=
  fun args => .ok (f args)

/-- `ToolRegistry.get_tool`: raises `ValueError("Tool not found: ...")` for
an unregistered name. -/
def get_tool (reg : Registry) (name : String) : Except PyExc ToolFn :=
  match dictGet reg name with
  | none => .error (.valueError ("Tool not found: " ++ name))
  | some t => .ok t

/-- `ToolRegistry.execute_tool`: look the tool up and run it; no exception
is caught here — both the lookup's `ValueError` and anything the tool
raises propagate to the caller. -/
def execute_tool (reg : Registry) (name : String) (args : ToolArgs) :
    Except PyExc (List TextContent) :=
  match get_tool reg name with
  | .error e => .error e
  | .ok t => t args

/-- The `call_tool` handler in `HaivenMCPServer._register_handlers`:
`except ValueError` is converted into one `Error: `-prefixed content item;
every other exception propagates to the RPC runtime. -/
def call_tool (reg : Registry) (name : String) (args : ToolArgs) :
    Except PyExc (List TextContent) :=
  match execute_tool reg name args with
  | .ok items => .ok items
  | .error (.valueError msg) =>
      .ok [{ type := "text", text := "Error: " ++ msg }]
  | .error .otherExc => .error .otherExc

/-!
Authentication setup (`HaivenMCPServer.__init__` in `src/mcp_server.py`).
-/

/-- Header and cookie configuration handed to `httpx.AsyncClient` at
construction; it is never mutated afterwards. -/
structure ClientConfig where
  headers : List (String × String)
  cookies : List (String × String)
deriving DecidableEq

/-- Python truthiness of an optional string (`if api_key:`): `None` and the
empty string are falsy. -/
def pyTruthy (o : Option String) : Bool :=
  o.getD "" != ""

/-- `os.getenv("HAIVEN_DISABLE_AUTH", "false").lower() == "true"`. -/
def parseDisableAuth (envVal : Option String) : Bool :=
  (envVal.getD "false").toLower = "true"

/-- The header/cookie construction in `HaivenMCPServer.__init__`: start
from the `Content-Type` header and an empty cookie dict; a truthy API key
adds the bearer `Authorization` header; the disable-auth flag and the
`session_cookie` parameter only influence logging — in particular the
cookie is never placed into the cookie dict. -/
def buildAuthConfig (api_key : Option String) (disable_auth : Bool)
    (session_cookie : Option String) : ClientConfig :=
  let headers := [("Content-Type", "application/json")]
  let cookies : List (String × String) := []
  let headers :=
    if pyTruthy api_key then
      dictInsert headers "Authorization" ("Bearer " ++ api_key.getD "")
    else headers
  { headers := headers, cookies := cookies }

/-!
Helper lemmas about the dict model and the service operations.
-/

theorem dictGet_dictInsert_self {α : Type} (m : List (String × α)) (k : String)
    (v : α) : dictGet (dictInsert m k v) k = some v := by
  induction m with
  | nil => simp [dictInsert, dictGet]
  | cons kv rest ih =>
      obtain ⟨k0, v0⟩ := kv
      by_cases h : k0 = k
      · simp [dictInsert, dictGet, h]
      · simp [dictInsert, dictGet, h, ih]

theorem dictGet_dictInsert_ne {α : Type} (m : List (String × α))
    (k k' : String) (v : α) (h : k ≠ k') :
    dictGet (dictInsert m k v) k' = dictGet m k' := by
  induction m with
  | nil => simp [dictInsert, dictGet, h]
  | cons kv rest ih =>
      obtain ⟨k0, v0⟩ := kv
      by_cases h0 : k0 = k
      · subst h0
        simp [dictInsert, dictGet, h]
      · simp [dictInsert, dictGet, h0, ih]

theorem dictInsert_of_dictGet {α : Type} (m : List (String × α)) (k : String)
    (v : α) (h : dictGet m k = some v) : dictInsert m k v = m := by
  induction m with
  | nil => simp [dictGet] at h
  | cons kv rest ih =>
      obtain ⟨k0, v0⟩ := kv
      by_cases h0 : k0 = k
      · simp [dictGet, h0] at h
        simp [dictInsert, h0, h]
      · simp [dictGet, h0] at h
        simp [dictInsert, h0, ih h]

theorem dictGet_isSome_of_mem {α : Type} {m : List (String × α)}
    {k : String} {v : α} (h : (k, v) ∈ m) : (dictGet m k).isSome = true := by
  induction m with
  | nil => simp at h
  | cons kv rest ih =>
      obtain ⟨k0, v0⟩ := kv
      rcases List.mem_cons.mp h with h1 | h1
      · cases h1
        simp [dictGet]
      · by_cases h0 : k0 = k
        · simp [dictGet, h0]
        · simp [dictGet, h0, ih h1]

/-- A record set that mentions an identifier only in restricted records
contributes nothing under that key: after the restriction filter no record
with the key survives, so `registerLoop` leaves the key's entry unchanged. -/
theorem registerLoop_dictGet_of_not_mem (ps : List RawCatalogRecord)
    (m : List (String × PromptMetadata)) (pid : String)
    (h : ∀ r ∈ ps, r.identifier ≠ some pid) :
    dictGet (registerLoop m ps) pid = dictGet m pid := by
  induction ps generalizing m with
  | nil => rfl
  | cons r rs ih =>
      have hr : r.identifier ≠ some pid := h r (List.mem_cons_self r rs)
      have hrs : ∀ q ∈ rs, q.identifier ≠ some pid :=
        fun q hq => h q (List.mem_cons_of_mem r hq)
      match hid : r.identifier with
      | none => simp [registerLoop, hid]
      | some k =>
          have hk : k ≠ pid := by
            intro hkp
            exact hr (by simp [hid, hkp])
          by_cases hke : k = ""
          · simp [registerLoop, hid, hke, ih _ hrs]
          · match hmd : toMetadata? r with
            | none => simp [registerLoop, hid, hke, hmd]
            | some md =>
                simp [registerLoop, hid, hke, hmd, ih (dictInsert m k md) hrs,
                      dictGet_dictInsert_ne m k pid md hk]

/-- Any key present after `registerLoop` was present before or is the
identifier of one of the processed records. -/
theorem registerLoop_dictGet_isSome (ps : List RawCatalogRecord)
    (m : List (String × PromptMetadata)) (pid : String)
    (h : (dictGet (registerLoop m ps) pid).isSome = true) :
    (dictGet m pid).isSome = true ∨ ∃ r ∈ ps, r.identifier = some pid := by
  induction ps generalizing m with
  | nil => exact Or.inl h
  | cons r rs ih =>
      match hid : r.identifier with
      | none =>
          rw [registerLoop, hid] at h
          exact Or.inl h
      | some k =>
          by_cases hkp : k = pid
          · exact Or.inr ⟨r, List.mem_cons_self r rs, by rw [hid, hkp]⟩
          · by_cases hke : k = ""
            · rw [registerLoop, hid] at h
              simp only [hke, if_pos rfl] at h
              rcases ih _ h with h1 | ⟨q, hq, hq2⟩
              · exact Or.inl h1
              · exact Or.inr ⟨q, List.mem_cons_of_mem r hq, hq2⟩
            · match hmd : toMetadata? r with
              | none =>
                  rw [registerLoop, hid] at h
                  simp only [hke, if_neg hke, hmd] at h
                  exact Or.inl h
              | some md =>
                  rw [registerLoop, hid] at h
                  simp only [hke, if_neg hke, hmd] at h
                  rcases ih _ h with h1 | ⟨q, hq, hq2⟩
                  · rw [dictGet_dictInsert_ne _ _ _ _ hkp] at h1
                    exact Or.inl h1
                  · exact Or.inr ⟨q, List.mem_cons_of_mem r hq, hq2⟩

/-- `register_prompts` never touches the content cache. -/
theorem register_prompts_cache (s : PromptServiceState)
    (resp : Except Unit (List RawCatalogRecord)) :
    (register_prompts s resp).prompt_content_cache = s.prompt_content_cache := by
  unfold register_prompts
  match load_prompts_from_api resp with
  | .error e => rfl
  | .ok ps => rfl

/-- `register_prompts` always leaves the service in the loaded state. -/
theorem register_prompts_loaded (s : PromptServiceState)
    (resp : Except Unit (List RawCatalogRecord)) :
    (register_prompts s resp).prompts_loaded = true := by
  unfold register_prompts
  match load_prompts_from_api resp with
  | .error e => rfl
  | .ok ps => rfl

/-- `get_prompt_content` never touches the catalog or the loaded flag. -/
theorem get_prompt_content_catalog (s : PromptServiceState) (pid : String)
    (resp : Except Unit DownloadBody) :
    (get_prompt_content s pid resp).state.prompts_loaded = s.prompts_loaded ∧
    (get_prompt_content s pid resp).state.loaded_prompts = s.loaded_prompts := by
  unfold get_prompt_content
  match dictGet s.prompt_content_cache pid with
  | some cached => exact ⟨rfl, rfl⟩
  | none =>
      match fetchContentResult pid resp with
      | none => exact ⟨rfl, rfl⟩
      | some r => exact ⟨rfl, rfl⟩

/-- Cached content entries persist across every operation. -/
theorem applyOp_cache_persists (s : PromptServiceState) (op : Op)
    (pid : String) (r : PromptContentResponse)
    (h : dictGet s.prompt_content_cache pid = some r) :
    dictGet (applyOp s op).prompt_content_cache pid = some r := by
  cases op with
  | register resp => rw [applyOp, register_prompts_cache]; exact h
  | fetch qid resp =>
      rw [applyOp]
      unfold get_prompt_content
      cases hc : dictGet s.prompt_content_cache qid with
      | some cached => simp only [hc]; exact h
      | none =>
          cases hf : fetchContentResult qid resp with
          | none => simp only [hc, hf]; exact h
          | some v =>
              simp only [hc, hf]
              by_cases hq : qid = pid
              · subst hq
                rw [hc] at h
                exact absurd h (by simp)
              · rw [dictGet_dictInsert_ne _ _ _ _ hq]
                exact h

/-- Every single operation preserves the loaded flag once it is true. -/
theorem applyOp_loaded (s : PromptServiceState) (op : Op)
    (h : s.prompts_loaded = true) : (applyOp s op).prompts_loaded = true := by
  cases op with
  | register resp => exact register_prompts_loaded s resp
  | fetch pid resp =>
      rw [applyOp, (get_prompt_content_catalog s pid resp).1]
      exact h

/-- A successful `get_prompt_content` call leaves its result in the cache
under the requested id. -/
theorem get_prompt_content_success_cached (s : PromptServiceState)
    (pid : String) (resp : Except Unit DownloadBody)
    (r : PromptContentResponse)
    (h : (get_prompt_content s pid resp).result = some r) :
    dictGet (get_prompt_content s pid resp).state.prompt_content_cache pid =
      some r := by
  unfold get_prompt_content at h ⊢
  cases hc : dictGet s.prompt_content_cache pid with
  | some cached =>
      simp only [hc] at h ⊢
      exact h
  | none =>
      cases hf : fetchContentResult pid resp with
      | none => simp [hc, hf] at h
      | some v =>
          simp only [hc, hf] at h ⊢
          simp only [Option.some.injEq] at h
          subst h
          exact dictGet_dictInsert_self _ _ _

/-- Cached content entries persist across any sequence of operations. -/
theorem applyOps_cache_persists (ops : List Op) (s : PromptServiceState)
    (pid : String) (r : PromptContentResponse)
    (h : dictGet s.prompt_content_cache pid = some r) :
    dictGet (applyOps s ops).prompt_content_cache pid = some r := by
  induction ops generalizing s with
  | nil => exact h
  | cons op rest ih => exact ih (applyOp s op) (applyOp_cache_persists s op pid r h)

/-- Starting from a state without the key, a sequence of catalog loads none
of whose responses carries a non-restricted record under the key never
creates an entry for it. -/
theorem register_foldl_dictGet_none
    (resps : List (Except Unit (List RawCatalogRecord))) (pid : String)
    (s : PromptServiceState)
    (hs : dictGet s.loaded_prompts pid = none)
    (h : ∀ resp ∈ resps, ∀ l, resp = Except.ok l →
      ∀ r ∈ l, r.identifier = some pid → r.download_restricted = some true) :
    dictGet (resps.foldl register_prompts s).loaded_prompts pid = none := by
  induction resps generalizing s with
  | nil => exact hs
  | cons resp rest ih =>
      have hstep : dictGet (register_prompts s resp).loaded_prompts pid = none := by
        cases resp with
        | error e => exact hs
        | ok l =>
            have hfiltered : ∀ r ∈ l.filter (fun q => !(q.download_restricted.getD false)),
                r.identifier ≠ some pid := by
              intro r hr hrid
              have hmem := List.of_mem_filter hr
              have hl := List.mem_of_mem_filter hr
              have := h (Except.ok l) (List.mem_cons_self _ _) l rfl r hl hrid
              rw [this] at hmem
              simp at hmem
            show dictGet (register_prompts s (Except.ok l)).loaded_prompts pid = none
            unfold register_prompts load_prompts_from_api
            simp only
            rw [registerLoop_dictGet_of_not_mem _ _ _ hfiltered]
            exact hs
      exact ih (register_prompts s resp) hstep
        (fun q hq => h q (List.mem_cons_of_mem _ hq))

/-- Every record in `get_cached_prompts_data` stems from a catalog entry:
its identifier is a key of `loaded_prompts` and its restriction flag is the
hard-coded `false`. -/
theorem get_cached_prompts_data_mem (s : PromptServiceState) (p : PromptData)
    (h : p ∈ get_cached_prompts_data s) :
    (dictGet s.loaded_prompts p.identifier).isSome = true ∧
    p.download_restricted = false := by
  unfold get_cached_prompts_data at h
  by_cases hl : s.prompts_loaded = false
  · rw [if_pos hl] at h
    simp at h
  · rw [if_neg hl] at h
    obtain ⟨kv, hkv, hp⟩ := List.mem_map.mp h
    subst hp
    refine ⟨dictGet_isSome_of_mem (v := kv.2) ?_, rfl⟩
    show (kv.1, kv.2) ∈ s.loaded_prompts
    simpa using hkv

/-!
Claims C1–C10.
-/

/-- Claim C1: `register_prompts` leaves `prompts_loaded = true` whether the
backend load succeeds or raises; no subsequent operation (further catalog
loads or content fetches — the only state-mutating operations; the read
methods are pure) resets the flag; and on a fresh service whose first load
raises, the count is 0 and every read method returns a well-defined value
(totality in the embedding models absence of raising), listed concretely:
empty data, empty listing, nothing loaded, the default-formatted
description, and a degraded content fetch that returns not-found without
mutating the state. -/
theorem register_prompts_always_loaded_and_reads_safe :
    (∀ s resp, (register_prompts s resp).prompts_loaded = true) ∧
    (∀ s ops, s.prompts_loaded = true →
      (applyOps s ops).prompts_loaded = true) ∧
    (∀ e : Unit,
      get_prompts_count (register_prompts initState (Except.error e)) = 0 ∧
      get_cached_prompts_data (register_prompts initState (Except.error e)) = [] ∧
      get_all_prompt_descriptions (register_prompts initState (Except.error e)) = [] ∧
      (∀ pid, is_prompt_loaded (register_prompts initState (Except.error e)) pid = false) ∧
      (∀ pid, get_prompt_metadata (register_prompts initState (Except.error e)) pid = none) ∧
      (∀ pid, format_prompt_description (register_prompts initState (Except.error e)) pid = ": ") ∧
      (∀ pid e2, get_prompt_content (register_prompts initState (Except.error e)) pid (Except.error e2) =
        { result := none, state := register_prompts initState (Except.error e),
          httpCalled := true })) := by
  refine ⟨register_prompts_loaded, ?_, ?_⟩
  · intro s ops h
    induction ops generalizing s with
    | nil => exact h
    | cons op rest ih => exact ih (applyOp s op) (applyOp_loaded s op h)
  · intro e
    exact ⟨rfl, rfl, rfl, fun pid => rfl, fun pid => rfl, fun pid => rfl,
      fun pid e2 => rfl⟩

/-- Witness for C1 at concrete inputs: a degraded load followed by a
content-fetch operation still shows `prompts_loaded = true`. -/
theorem register_prompts_always_loaded_witness :
    (applyOps (register_prompts initState (Except.error ()))
      [Op.fetch "p" (Except.error ())]).prompts_loaded = true :=
  register_prompts_always_loaded_and_reads_safe.2.1
    (register_prompts initState (Except.error ()))
    [Op.fetch "p" (Except.error ())]
    (register_prompts_always_loaded_and_reads_safe.1 initState (Except.error ()))

/-- A catalog record flagged restricted. -/
def c2Restricted : RawCatalogRecord :=
  { identifier := some "p", title := some "T", categories := some ["a"],
    help_prompt_description := some "D", help_user_input := some "U",
    help_sample_input := some "S", type := some "chat",
    download_restricted := some true }

/-- The same record without the restriction flag. -/
def c2Unrestricted : RawCatalogRecord :=
  { c2Restricted with download_restricted := some false }

/-- Claim C2 counterexample: a backend response carrying a restricted
record and a non-restricted record with the same identifier. The
restricted record's identifier does appear in `get_cached_prompts_data`
and `is_prompt_loaded` is true — the claim as stated fails when another,
non-restricted record shares the identifier. -/
theorem restricted_identifier_reappears_cex :
    c2Restricted.download_restricted = some true ∧
    is_prompt_loaded
      (register_prompts initState (Except.ok [c2Restricted, c2Unrestricted]))
      "p" = true ∧
    (get_cached_prompts_data
      (register_prompts initState (Except.ok [c2Restricted, c2Unrestricted]))).map
        PromptData.identifier = ["p"] :=
  ⟨rfl, rfl, rfl⟩

/-- Claim C2 (amended): a restricted record's identifier never appears in
`get_cached_prompts_data` nor in `is_prompt_loaded` after any sequence of
`register_prompts` calls, provided no response of the sequence carries a
record with that identifier that is not flagged restricted; and every
record of `get_cached_prompts_data` carries `download_restricted = false`
unconditionally. -/
theorem restricted_records_never_loaded :
    (∀ (resps : List (Except Unit (List RawCatalogRecord))) (pid : String),
      (∀ resp ∈ resps, ∀ l, resp = Except.ok l →
        ∀ r ∈ l, r.identifier = some pid → r.download_restricted = some true) →
      is_prompt_loaded (resps.foldl register_prompts initState) pid = false ∧
      ∀ p ∈ get_cached_prompts_data (resps.foldl register_prompts initState),
        p.identifier ≠ pid) ∧
    (∀ s, ∀ p ∈ get_cached_prompts_data s, p.download_restricted = false) := by
  constructor
  · intro resps pid h
    have hnone := register_foldl_dictGet_none resps pid initState rfl h
    constructor
    · rw [is_prompt_loaded, hnone]
      rfl
    · intro p hp hpid
      have := (get_cached_prompts_data_mem _ p hp).1
      rw [hpid, hnone] at this
      simp at this
  · intro s p hp
    exact (get_cached_prompts_data_mem s p hp).2

/-- Witness for C2 at concrete inputs: a single response whose only record
with identifier "p" is restricted; "p" is not loaded afterwards. -/
theorem restricted_records_never_loaded_witness :
    is_prompt_loaded
      ([Except.ok [c2Restricted]].foldl register_prompts initState) "p" = false :=
  (restricted_records_never_loaded.1 [Except.ok [c2Restricted]] "p"
    (by
      intro resp hresp l hl r hr hrid
      simp only [List.mem_singleton] at hresp
      subst hresp
      injection hl with hl
      subst hl
      simp only [List.mem_singleton] at hr
      subst hr
      rfl)).1

/-- First content fetch for "p": the backend answers with an empty body, so
the call returns not-found. -/
def c3Miss1 : FetchOutcome :=
  get_prompt_content initState "p" (Except.ok DownloadBody.empty)

/-- Second, consecutive fetch for the same id against the same backend. -/
def c3Miss2 : FetchOutcome :=
  get_prompt_content c3Miss1.state "p" (Except.ok DownloadBody.empty)

/-- Claim C3 counterexample: two consecutive `get_prompt_content` calls
with the same id where both issue a backend HTTP request — a not-found
first call caches nothing, so the second call fetches again; the claim's
"at most one backend HTTP call per distinct id" and "the second call
performs no HTTP request" fail as stated. -/
theorem second_call_refetches_cex :
    c3Miss1.result = none ∧ c3Miss1.httpCalled = true ∧
    c3Miss2.httpCalled = true :=
  ⟨rfl, rfl, rfl⟩

/-- Claim C3 (amended): `get_prompt_content` issues at most one successful
backend fetch per distinct id: once a call for an id returns a non-`none`
result, the result is cached for the rest of the process, and any later
call for that id — after arbitrary intervening operations — returns the
structurally identical result without issuing an HTTP request. (A call that
returns `none` caches nothing and a later call fetches again.) -/
theorem content_cached_after_success (s : PromptServiceState) (pid : String)
    (resp : Except Unit DownloadBody) (r : PromptContentResponse)
    (h : (get_prompt_content s pid resp).result = some r) :
    ∀ (ops : List Op) (resp2 : Except Unit DownloadBody),
      get_prompt_content (applyOps (get_prompt_content s pid resp).state ops)
          pid resp2 =
        { result := some r,
          state := applyOps (get_prompt_content s pid resp).state ops,
          httpCalled := false } := by
  intro ops resp2
  have hcache :=
    applyOps_cache_persists ops (get_prompt_content s pid resp).state pid r
      (get_prompt_content_success_cached s pid resp r h)
  generalize hS : applyOps (get_prompt_content s pid resp).state ops = s2 at hcache ⊢
  unfold get_prompt_content
  rw [hcache]

/-- A download-prompt record with every field absent. -/
def emptyRawContent : RawContent :=
  { identifier := none, title := none, content := none, type := none,
    follow_ups := none }

/-- The normalization of `emptyRawContent` for the id "p": every default
filled in. -/
def defaultContentP : PromptContentResponse :=
  { prompt_id := "p", title := "Unknown", content := "No content available",
    type := "chat", follow_ups := [] }

/-- Witness for C3 at concrete inputs: after a successful fetch of "p"
from a one-element list body, a second call (here with a failing backend)
returns the identical cached result without an HTTP request. -/
theorem content_cached_after_success_witness :
    get_prompt_content
        (applyOps (get_prompt_content initState "p"
          (Except.ok (DownloadBody.list [emptyRawContent]))).state [])
        "p" (Except.error ()) =
      { result := some defaultContentP,
        state := applyOps (get_prompt_content initState "p"
          (Except.ok (DownloadBody.list [emptyRawContent]))).state [],
        httpCalled := false } :=
  content_cached_after_success initState "p"
    (Except.ok (DownloadBody.list [emptyRawContent]))
    defaultContentP rfl [] (Except.error ())

/-- Claim C10: a not-found outcome is never stored: a `none` result leaves
the state (hence the content cache) unchanged and can only arise on a cache
miss, so any later call for the same id against the unchanged state issues
the backend fetch again; and a successful result updates the cache exactly
by inserting the normalized response under the requested id. -/
theorem no_negative_caching :
    (∀ s pid resp, (get_prompt_content s pid resp).result = none →
      (get_prompt_content s pid resp).state = s ∧
      dictGet s.prompt_content_cache pid = none ∧
      (∀ resp2, (get_prompt_content s pid resp2).httpCalled = true)) ∧
    (∀ s pid resp r, (get_prompt_content s pid resp).result = some r →
      (get_prompt_content s pid resp).state.prompt_content_cache =
        dictInsert s.prompt_content_cache pid r) := by
  constructor
  · intro s pid resp h
    unfold get_prompt_content at h ⊢
    cases hc : dictGet s.prompt_content_cache pid with
    | some cached => simp [hc] at h
    | none =>
        cases hf : fetchContentResult pid resp with
        | none =>
            refine ⟨by simp [hc, hf], rfl, ?_⟩
            intro resp2
            cases hf2 : fetchContentResult pid resp2 <;> simp [hc, hf2]
        | some v => simp [hc, hf] at h
  · intro s pid resp r h
    unfold get_prompt_content at h ⊢
    cases hc : dictGet s.prompt_content_cache pid with
    | some cached =>
        simp only [hc] at h ⊢
        simp only [Option.some.injEq] at h
        subst h
        exact (dictInsert_of_dictGet _ _ _ hc).symm
    | none =>
        cases hf : fetchContentResult pid resp with
        | none => simp [hc, hf] at h
        | some v =>
            simp only [hc, hf] at h ⊢
            simp only [Option.some.injEq] at h
            subst h
            rfl

/-- Witness for C10 at concrete inputs: an empty-body fetch for "p" leaves
the fresh state unchanged, and a retry against a failing backend issues the
HTTP request again. -/
theorem no_negative_caching_witness :
    (get_prompt_content initState "p" (Except.ok DownloadBody.empty)).state =
      initState ∧
    (get_prompt_content initState "p" (Except.error ())).httpCalled = true :=
  ⟨(no_negative_caching.1 initState "p" (Except.ok DownloadBody.empty) rfl).1,
   (no_negative_caching.1 initState "p" (Except.ok DownloadBody.empty) rfl).2.2
     (Except.error ())⟩

/-- A restricted catalog record as the backend returns it. -/
def c4Restricted : RawCatalogRecord :=
  { identifier := some "restricted-prompt", title := some "Secret",
    categories := some ["x"], help_prompt_description := some "D",
    help_user_input := some "", help_sample_input := some "",
    type := some "chat", download_restricted := some true }

/-- Service state after a catalog load whose only record is restricted:
loaded, with an empty catalog. -/
def c4CatalogState : PromptServiceState :=
  register_prompts initState (Except.ok [c4Restricted])

/-- A concrete download-prompt body for id "p". -/
def c4Content : RawContent :=
  { identifier := some "p", title := some "T", content := some "C",
    type := some "chat", follow_ups := some [] }

/-- Service state with the content of "p" already cached. -/
def c4CacheState : PromptServiceState :=
  (get_prompt_content c4CatalogState "p"
    (Except.ok (DownloadBody.obj c4Content))).state

/-- Claim C4 (code-bug evaluation): neither tool delegates to the
`PromptService`. The listing tool's own `GET /api/prompts` returns the
restricted record (unfiltered) although `get_cached_prompts_data` is empty,
and the content tool issues an HTTP request on every call with a truthy
`prompt_id` — here for an id whose content the service already holds in its
cache. The final conjunct records the one part of the claim the code does
satisfy: a missing `prompt_id` yields the required-argument error item. The
repository's own tests (tests/tools/test_tools.py) assert the delegation
the claim describes, so the tool code, not the spec, is at fault. -/
theorem tools_bypass_prompt_service :
    get_cached_prompts_data c4CatalogState = [] ∧
    (getPrompts_execute (Except.ok [c4Restricted])).1 =
      GetPromptsResult.success [filteredPromptOf c4Restricted] 1 ∧
    (filteredPromptOf c4Restricted).identifier = "restricted-prompt" ∧
    dictGet c4CacheState.prompt_content_cache "p" =
      some { prompt_id := "p", title := "T", content := "C", type := "chat",
             follow_ups := [] } ∧
    (∀ resp, (getPromptText_execute [("prompt_id", "p")] resp).2 = true) ∧
    (getPromptText_execute [] (Except.ok DownloadBody.empty)).1 =
      GetPromptTextResult.errorText "Error: prompt_id is required" := by
  refine ⟨rfl, rfl, rfl, rfl, ?_, rfl⟩
  intro resp
  cases resp with
  | error e => rfl
  | ok body =>
      cases body with
      | empty => rfl
      | obj o => rfl
      | list l => cases l with
        | nil => rfl
        | cons o rest => rfl

/-- Claim C5: on a cache miss, `get_prompt_content` returns not-found for
an exception, an empty body or an empty list, without touching the state;
a non-empty list is consumed through its first element; a single object is
normalized directly; and the normalization of an all-absent record fills
exactly the documented defaults. -/
theorem fetch_normalization (s : PromptServiceState) (pid : String)
    (h : dictGet s.prompt_content_cache pid = none) :
    (∀ e, get_prompt_content s pid (Except.error e) =
      { result := none, state := s, httpCalled := true }) ∧
    get_prompt_content s pid (Except.ok DownloadBody.empty) =
      { result := none, state := s, httpCalled := true } ∧
    get_prompt_content s pid (Except.ok (DownloadBody.list [])) =
      { result := none, state := s, httpCalled := true } ∧
    (∀ o rest,
      (get_prompt_content s pid
        (Except.ok (DownloadBody.list (o :: rest)))).result =
        some (normalizeContent pid o)) ∧
    (∀ o, (get_prompt_content s pid (Except.ok (DownloadBody.obj o))).result =
      some (normalizeContent pid o)) ∧
    normalizeContent pid emptyRawContent =
      { prompt_id := pid, title := "Unknown", content := "No content available",
        type := "chat", follow_ups := [] } := by
  refine ⟨?_, ?_, ?_, ?_, ?_, rfl⟩
  · intro e
    unfold get_prompt_content
    rw [h]
    rfl
  · unfold get_prompt_content
    rw [h]
    rfl
  · unfold get_prompt_content
    rw [h]
    rfl
  · intro o rest
    unfold get_prompt_content
    rw [h]
    rfl
  · intro o
    unfold get_prompt_content
    rw [h]
    rfl

/-- Witness for C5 at concrete inputs: on the fresh service, an empty-list
body for "p" yields not-found, and a one-element list is normalized with
the defaults. -/
theorem fetch_normalization_witness :
    get_prompt_content initState "p" (Except.ok (DownloadBody.list [])) =
      { result := none, state := initState, httpCalled := true } ∧
    (get_prompt_content initState "p"
      (Except.ok (DownloadBody.list [emptyRawContent]))).result =
      some (normalizeContent "p" emptyRawContent) :=
  ⟨(fetch_normalization initState "p" rfl).2.2.1,
   (fetch_normalization initState "p" rfl).2.2.2.1 emptyRawContent []⟩

/-- Claim C6: a call-tool request for an unregistered name raises
`ValueError("Tool not found: ...")` inside the registry, and the protocol
handler converts it into a normal result holding exactly one content item
whose text is `Error: ` followed by `Tool not found: ` and the name — no
exception reaches the RPC runtime for this case. -/
theorem call_tool_unknown_tool (reg : Registry) (name : String)
    (args : ToolArgs) (h : dictGet reg name = none) :
    execute_tool reg name args =
      Except.error (PyExc.valueError ("Tool not found: " ++ name)) ∧
    call_tool reg name args =
      Except.ok [{ type := "text",
                   text := "Error: " ++ ("Tool not found: " ++ name) }] := by
  have hex : execute_tool reg name args =
      Except.error (PyExc.valueError ("Tool not found: " ++ name)) := by
    unfold execute_tool get_tool
    rw [h]
  refine ⟨hex, ?_⟩
  unfold call_tool
  rw [hex]

/-- Witness for C6 at concrete inputs: the empty registry and the name
"nonexistent". -/
theorem call_tool_unknown_tool_witness :
    call_tool [] "nonexistent" [] =
      Except.ok [{ type := "text",
                   text := "Error: " ++ ("Tool not found: " ++ "nonexistent") }] :=
  (call_tool_unknown_tool [] "nonexistent" [] rfl).2

/-- A registered tool whose `execute` raises an exception that is not a
`ValueError`. -/
def boomTool : ToolFn := fun _ => Except.error PyExc.otherExc

/-- Claim C7 counterexample: a tool raising a non-`ValueError` exception.
Neither `execute_tool` (which catches nothing) nor `call_tool` (which
catches only `ValueError`) converts it: the exception propagates out of
the tool-dispatch layer instead of becoming an error content item. -/
theorem tool_exception_propagates_cex :
    execute_tool [("boom", boomTool)] "boom" [] =
      Except.error PyExc.otherExc ∧
    call_tool [("boom", boomTool)] "boom" [] =
      Except.error PyExc.otherExc :=
  ⟨rfl, rfl⟩

/-- Looking up a dict built by mapping a function over the values. -/
theorem dictGet_map_values {α β : Type} (f : α → β)
    (m : List (String × α)) (k : String) :
    dictGet (m.map (fun kv => (kv.1, f kv.2))) k = (dictGet m k).map f := by
  induction m with
  | nil => rfl
  | cons kv rest ih =>
      obtain ⟨k0, v0⟩ := kv
      by_cases h0 : k0 = k
      · simp [dictGet, h0]
      · simp [dictGet, h0, ih]

/-- Claim C7 (amended): only `ValueError` is converted to an error content
item, and at the protocol-handler (`call_tool`) boundary rather than the
registry: `execute_tool` catches nothing, `call_tool` converts a raised
`ValueError` into a single `Error: `-prefixed content item and lets every
other exception propagate. Tools whose `execute` body sits in a catch-all
handler — as both shipped handlers' do — never raise, so a registry built
from such tools never lets a tool fault escape `call_tool`. -/
theorem only_value_error_converted :
    (∀ reg name args msg,
      execute_tool reg name args = Except.error (PyExc.valueError msg) →
      call_tool reg name args =
        Except.ok [{ type := "text", text := "Error: " ++ msg }]) ∧
    (∀ reg name args,
      execute_tool reg name args = Except.error PyExc.otherExc →
      call_tool reg name args = Except.error PyExc.otherExc) ∧
    (∀ (tools : List (String × (ToolArgs → List TextContent))) name args,
      ∃ items,
        call_tool (tools.map (fun nf => (nf.1, mkTool nf.2))) name args =
          Except.ok items) := by
  refine ⟨?_, ?_, ?_⟩
  · intro reg name args msg h
    unfold call_tool
    rw [h]
  · intro reg name args h
    unfold call_tool
    rw [h]
  · intro tools name args
    unfold call_tool execute_tool get_tool
    rw [dictGet_map_values]
    cases hc : dictGet tools name with
    | none => exact ⟨_, rfl⟩
    | some f => exact ⟨f args, rfl⟩

/-- Witness for C7 at concrete inputs: an unregistered name's `ValueError`
is converted into the single error content item. -/
theorem only_value_error_converted_witness :
    call_tool [] "missing" [] =
      Except.ok [{ type := "text",
                   text := "Error: " ++ "Tool not found: missing" }] :=
  only_value_error_converted.1 [] "missing" [] "Tool not found: missing" rfl

/-- A catalog record whose category list is the non-empty list containing
one empty string. -/
def c8Record : RawCatalogRecord :=
  { identifier := some "p", title := some "T", categories := some [""],
    help_prompt_description := some "D", help_user_input := some "",
    help_sample_input := some "", type := some "chat",
    download_restricted := some false }

/-- Service state holding the record above. -/
def c8State : PromptServiceState :=
  register_prompts initState (Except.ok [c8Record])

/-- Claim C8 counterexample: a loaded record with the non-empty category
list containing one empty string. Its comma-join is empty, so the code
omits the suffix and returns "T: D", while the claim demands
"T: D (Categories: )" for every non-empty category list. -/
theorem format_description_nonempty_categories_cex :
    get_prompt_metadata c8State "p" =
      some { title := "T", categories := [""], help_prompt_description := "D",
             help_user_input := "", help_sample_input := "", type := "chat" } ∧
    format_prompt_description c8State "p" = "T: D" ∧
    "T: D" ≠ "T: D (Categories: )" := by
  refine ⟨rfl, rfl, by decide⟩

/-- Claim C8 (amended): for a loaded record, the description is
"{title}: {description} (Categories: {comma-join})" whenever the comma-join
of the category list is non-empty, and "{title}: {description}" whenever
the comma-join is empty — i.e. when the list is empty, and also in the
corner case of category entries that join to the empty string. -/
theorem format_description_spec (s : PromptServiceState) (pid : String)
    (md : PromptMetadata) (h : dictGet s.loaded_prompts pid = some md) :
    (String.intercalate ", " md.categories ≠ "" →
      format_prompt_description s pid =
        md.title ++ ": " ++ md.help_prompt_description ++ " (Categories: " ++
          String.intercalate ", " md.categories ++ ")") ∧
    (String.intercalate ", " md.categories = "" →
      format_prompt_description s pid =
        md.title ++ ": " ++ md.help_prompt_description) := by
  constructor
  · intro hne
    have hcats : md.categories.isEmpty = false := by
      cases hc : md.categories with
      | nil =>
          rw [hc] at hne
          exact absurd rfl hne
      | cons a t => rfl
    simp [format_prompt_description, h, hcats, hne]
  · intro he
    by_cases hcats : md.categories.isEmpty
    · simp [format_prompt_description, h, hcats]
    · simp only [Bool.not_eq_true] at hcats
      simp [format_prompt_description, h, hcats, he]

/-- Metadata with the two-element category list ["a", "b"]. -/
def c8WitnessMeta : PromptMetadata :=
  { title := "T", categories := ["a", "b"], help_prompt_description := "D",
    help_user_input := "", help_sample_input := "", type := "chat" }

/-- A loaded service holding `c8WitnessMeta` under "p". -/
def c8WitnessState : PromptServiceState :=
  { prompts_loaded := true, loaded_prompts := [("p", c8WitnessMeta)],
    prompt_content_cache := [] }

/-- Witness for C8 at concrete inputs: a record with categories
["a", "b"] yields the suffixed form. -/
theorem format_description_spec_witness :
    format_prompt_description c8WitnessState "p" =
      "T" ++ ": " ++ "D" ++ " (Categories: " ++
        String.intercalate ", " ["a", "b"] ++ ")" :=
  (format_description_spec c8WitnessState "p" c8WitnessMeta rfl).1 (by decide)

/-- Claim C9 counterexample: a session cookie is supplied at construction
(with and without an API key) yet the client's cookie jar stays empty —
the cookie is accepted as a parameter but never attached to the HTTP
client. -/
theorem session_cookie_not_attached_cex :
    (buildAuthConfig none false (some "session=abc")).cookies = [] ∧
    dictGet (buildAuthConfig none false (some "session=abc")).headers
      "Authorization" = none ∧
    (buildAuthConfig (some "key123") true (some "session=abc")).cookies = [] :=
  ⟨rfl, rfl, rfl⟩

/-- Claim C9 (amended): at construction exactly one authentication mode is
active with precedence API key > disable-flag > none: a truthy API key
yields exactly the `Content-Type` plus bearer `Authorization` headers,
otherwise (disable-flag or nothing) only `Content-Type`; the cookie jar is
always empty, and the configuration depends on neither the session cookie
nor the disable flag — the supplied session cookie is accepted for
backward compatibility but never attached. The configuration is built once
in the constructor and never mutated (the embedding builds it as a pure
value). -/
theorem auth_mode_precedence (api_key : Option String) (disable_auth : Bool)
    (session_cookie : Option String) :
    (pyTruthy api_key = true →
      (buildAuthConfig api_key disable_auth session_cookie).headers =
        [("Content-Type", "application/json"),
         ("Authorization", "Bearer " ++ api_key.getD "")]) ∧
    (pyTruthy api_key = false →
      (buildAuthConfig api_key disable_auth session_cookie).headers =
        [("Content-Type", "application/json")]) ∧
    (buildAuthConfig api_key disable_auth session_cookie).cookies = [] ∧
    buildAuthConfig api_key disable_auth session_cookie =
      buildAuthConfig api_key false none := by
  refine ⟨?_, ?_, rfl, rfl⟩
  · intro h
    simp [buildAuthConfig, h, dictInsert]
  · intro h
    simp [buildAuthConfig, h]

/-- Witness for C9 at concrete inputs: an API key plus disable flag plus
session cookie yields the bearer header (the key wins), no cookie. -/
theorem auth_mode_precedence_witness :
    (buildAuthConfig (some "k") true (some "c")).headers =
      [("Content-Type", "application/json"),
       ("Authorization", "Bearer " ++ (some "k").getD "")] ∧
    (buildAuthConfig none true none).headers =
      [("Content-Type", "application/json")] :=
  ⟨(auth_mode_precedence (some "k") true (some "c")).1 rfl,
   (auth_mode_precedence none true none).2.1 rfl⟩

end Haiven
